import Mathlib

/-!
Verification of the VertexNtuples/VertexNtuplizer analysis module.

The module consists of an event orchestrator (VertexNtuplizer::analyze in
plugins/VertexNtuplizer.cc), a generator-vertex builder and a reconstructed-jet
builder (interface/RecoJetCollectionBuilder.h).  The orchestrator and the jet
builder accessors are embedded from the source; the builder bodies
(GenVertexCollectionBuilder and the RecoJetCollectionBuilder build and goodJet
members) have no implementation in the repository snapshot, and are modelled
from the design specification.  C++ doubles are modelled as rationals, and the
square root in the two distance metrics is avoided by comparing squared
distances against squared cuts, which is equivalent for non-negative cuts.
-/

/-- A 3D spatial position, with rational coordinates modelling the C++ doubles. -/
structure Pos3 where
  x : ℚ
  y : ℚ
  z : ℚ
deriving DecidableEq, Repr

/-- Squared Euclidean distance between two positions.  Comparisons of true
distances against non-negative thresholds are performed on squares. -/
def dist2 (p q : Pos3) : ℚ :=
  (p.x - q.x) ^ 2 + (p.y - q.y) ^ 2 + (p.z - q.z) ^ 2

/-- A generator-level particle: PDG-style identity code and an optional recorded
production position (a particle with no recorded production position is
excluded from clustering, per the MalformedPosition rule). -/
structure GenParticle where
  pdgId : Int
  prodPos : Option Pos3
deriving DecidableEq, Repr

/-- Modelled from the spec: an identity code denotes a neutrino.  The standard
PDG codes for the three neutrino species are 12, 14 and 16 (either sign). -/
def isNeutrino (pdg : Int) : Bool :=
  pdg.natAbs == 12 || pdg.natAbs == 14 || pdg.natAbs == 16

/-- A simulated track, reduced to the attribute the builder consults: the
position of its originating vertex. -/
structure SimTrack where
  vtxPos : Pos3
deriving DecidableEq, Repr

/-- A produced generator vertex: position, outgoing daughter particles sharing
that position within tolerance, and the sim-match classification flag. -/
structure GenVertex where
  pos : Pos3
  daughters : List GenParticle
  simMatched : Bool
deriving DecidableEq, Repr

/-- Configuration of the generator-vertex builder: clustering tolerance eps and
minimum primary separation delta, read once at construction. -/
structure GVConfig where
  eps : ℚ
  delta : ℚ
deriving DecidableEq, Repr

/-- Modelled from the spec (GenVertexCollectionBuilder implementation is not in
the repository snapshot): sequential positional clustering.  A particle joins
the first existing group whose representative position is within tolerance
(squared distance at most eps squared) of its production position; otherwise it
starts a new group whose representative position is its own. -/
def insertParticle (eps : ℚ) (p : GenParticle) (pos : Pos3) :
    List (Pos3 × List GenParticle) → List (Pos3 × List GenParticle)
  | [] => [(pos, [p])]
  | c :: rest =>
    if dist2 pos c.1 ≤ eps ^ 2 then (c.1, c.2 ++ [p]) :: rest
    else c :: insertParticle eps p pos rest

/-- Modelled from the spec: partition the particles that carry a recorded
production position into positional groups, in input order. -/
def clusterParticles (eps : ℚ) (parts : List GenParticle) :
    List (Pos3 × List GenParticle) :=
  parts.foldl (fun acc p =>
    match p.prodPos with
    | none => acc
    | some pos => insertParticle eps p pos acc) []

/-- A candidate group qualifies as a vertex only with at least two members. -/
def goodCluster (c : Pos3 × List GenParticle) : Bool :=
  decide (2 ≤ c.2.length)

/-- A group is kept only when its position is farther than the minimum
separation delta from the primary vertex (squared comparison). -/
def awayFromPrimary (delta : ℚ) (pv : Pos3) (c : Pos3 × List GenParticle) : Bool :=
  !decide (dist2 c.1 pv ≤ delta ^ 2)

/-- Modelled from the spec: the clusters surviving the multiplicity and
primary-separation filters, in stable input order. -/
def survivingClusters (cfg : GVConfig) (pv : Pos3) (parts : List GenParticle) :
    List (Pos3 × List GenParticle) :=
  ((clusterParticles cfg.eps parts).filter goodCluster).filter
    (awayFromPrimary cfg.delta pv)

/-- Modelled from the spec: turn a surviving cluster into a fully classified
GenVertex; the sim-match flag records whether some simulated track originates
within tolerance of the cluster position. -/
def classifyCluster (cfg : GVConfig) (simTracks : List SimTrack)
    (c : Pos3 × List GenParticle) : GenVertex :=
  { pos := c.1
    daughters := c.2
    simMatched := simTracks.any (fun t => decide (dist2 t.vtxPos c.1 ≤ cfg.eps ^ 2)) }

/-- Modelled from the spec: the single classified-cluster pass from which all
four output collections are projected. -/
def gvVertices (cfg : GVConfig) (parts : List GenParticle)
    (simTracks : List SimTrack) (pv : Pos3) : List GenVertex :=
  (survivingClusters cfg pv parts).map (classifyCluster cfg simTracks)

/-- Modelled from the spec: the no-neutrino variant of a vertex, which exists
only when at least two daughters remain after removing neutrino daughters. -/
def removeNeutrinos (v : GenVertex) : Option GenVertex :=
  if 2 ≤ (v.daughters.filter (fun p => !isNeutrino p.pdgId)).length then
    some { pos := v.pos
           daughters := v.daughters.filter (fun p => !isNeutrino p.pdgId)
           simMatched := v.simMatched }
  else none

/-- The per-event output storage of the generator-vertex builder: the four
GenVertex collections (all, sim-matched, no-neutrino, no-neutrino sim-matched). -/
structure GVBuilder where
  genVertices : List GenVertex
  genVerticesSimMatch : List GenVertex
  genVerticesNoNu : List GenVertex
  genVerticesNoNuSimMatch : List GenVertex
deriving DecidableEq, Repr

/-- Modelled from the spec: the build pass of the generator-vertex builder.
The previous per-event state is cleared at the start of the call (hence the
state argument is not consulted); the four collections are projections of one
clustering pass. -/
def gvBuild (cfg : GVConfig) (_st : GVBuilder) (parts : List GenParticle)
    (simTracks : List SimTrack) (pv : Pos3) : GVBuilder :=
  { genVertices := gvVertices cfg parts simTracks pv
    genVerticesSimMatch := (gvVertices cfg parts simTracks pv).filter
      (fun v => v.simMatched)
    genVerticesNoNu := (gvVertices cfg parts simTracks pv).filterMap removeNeutrinos
    genVerticesNoNuSimMatch :=
      ((gvVertices cfg parts simTracks pv).filterMap removeNeutrinos).filter
        (fun v => v.simMatched) }

/-- A reconstructed jet as consumed by the jet builder: pseudorapidity, azimuth
and transverse momentum. -/
structure Jet where
  eta : ℚ
  phi : ℚ
  pt : ℚ
deriving DecidableEq, Repr

/-- One entry of the generator-flavour-info collection that carries a matched
generator jet: its direction and its flavour label.  A malformed entry (no
matched generator jet) is modelled as none in the input list. -/
structure GenJetEntry where
  eta : ℚ
  phi : ℚ
  flavour : Int
deriving DecidableEq, Repr

/-- A produced RecoJet: kinematics plus the optional matched generator flavour. -/
structure RecoJet where
  eta : ℚ
  phi : ℚ
  pt : ℚ
  genFlavour : Option Int
deriving DecidableEq, Repr

/-- Build a RecoJet from a jet and an optional generator flavour label. -/
def mkRecoJet (j : Jet) (fl : Option Int) : RecoJet :=
  { eta := j.eta, phi := j.phi, pt := j.pt, genFlavour := fl }

/-- Configuration of the jet builder, read once at construction: the three
kinematic cuts, the angular matching cut, and the half-period used for azimuth
wrapping (the code uses the irrational constant pi; the model takes the
half-period as a parameter, and every theorem holds for every value). -/
structure RJConfig where
  absEtaMax : ℚ
  jetPtMin : ℚ
  jetPtMax : ℚ
  drCut : ℚ
  piVal : ℚ
deriving DecidableEq, Repr

/-- Wrap an azimuthal difference into the half-open interval from minus piVal
exclusive to piVal inclusive, by subtracting the unique fitting multiple of the
full period. -/
def wrapPhi (piVal x : ℚ) : ℚ :=
  x - 2 * piVal * ((⌈(x - piVal) / (2 * piVal)⌉ : ℤ) : ℚ)

/-- Squared angular distance between two directions: squared pseudorapidity
difference plus squared wrapped azimuth difference. -/
def deltaR2 (piVal e1 f1 e2 f2 : ℚ) : ℚ :=
  (e1 - e2) ^ 2 + (wrapPhi piVal (f1 - f2)) ^ 2

/-- Squared angular distance between a reconstructed jet and a generator jet. -/
def jetDr2 (piVal : ℚ) (j : Jet) (g : GenJetEntry) : ℚ :=
  deltaR2 piVal j.eta j.phi g.eta g.phi

/-- Modelled from the spec (the goodJet member has no body in the repository
snapshot): the kinematic selection, with all three bounds inclusive. -/
def goodJet (cfg : RJConfig) (j : Jet) : Bool :=
  decide (|j.eta| ≤ cfg.absEtaMax ∧ cfg.jetPtMin ≤ j.pt ∧ j.pt ≤ cfg.jetPtMax)

/-- The generator-flavour entries that carry a matched generator jet, paired
with their index in the input collection, starting from the given index. -/
def indexedEntries : Nat → List (Option GenJetEntry) → List (Nat × GenJetEntry)
  | _, [] => []
  | i, none :: rest => indexedEntries (i + 1) rest
  | i, some g :: rest => (i, g) :: indexedEntries (i + 1) rest

/-- Choose between a candidate and the best of the later candidates: the later
best wins only with a strictly smaller squared angular distance, so ties go to
the earlier candidate. -/
def betterOf (piVal : ℚ) (j : Jet) (c : Nat × GenJetEntry)
    (o : Option (Nat × GenJetEntry)) : Option (Nat × GenJetEntry) :=
  match o with
  | none => some c
  | some b => if jetDr2 piVal j b.2 < jetDr2 piVal j c.2 then some b else some c

/-- Modelled from the spec: the nearest candidate generator jet to a given jet,
with ties in squared angular distance broken in favour of the candidate that
comes earlier in the list. -/
def bestMatch (piVal : ℚ) (j : Jet) :
    List (Nat × GenJetEntry) → Option (Nat × GenJetEntry)
  | [] => none
  | c :: rest => betterOf piVal j c (bestMatch piVal j rest)

/-- Accept the nearest candidate only when its squared angular distance is at
most the squared matching cut; on acceptance the jet carries that candidate
generator jet flavour. -/
def acceptMatch (cfg : RJConfig) (j : Jet) (o : Option (Nat × GenJetEntry)) :
    Option RecoJet :=
  match o with
  | none => none
  | some b =>
    if jetDr2 cfg.piVal j b.2 ≤ cfg.drCut ^ 2 then
      some (mkRecoJet j (some b.2.flavour))
    else none

/-- Modelled from the spec: the gen-match outcome for one selected jet.  The
jet enters the gen-matched collection, carrying the flavour of its nearest
generator jet, exactly when the minimum squared angular distance is at most the
squared cut. -/
def matchJet (cfg : RJConfig) (cands : List (Nat × GenJetEntry)) (j : Jet) :
    Option RecoJet :=
  acceptMatch cfg j (bestMatch cfg.piVal j cands)

/-- The per-event state of the reconstructed-jet builder, as declared in
RecoJetCollectionBuilder.h: the two output collections and the stored copies of
the input collections. -/
structure RJBuilder where
  recoJets : List RecoJet
  recoJetsGenMatch : List RecoJet
  jets : List Jet
  genJetsFlavourInfo : List (Option GenJetEntry)
deriving DecidableEq, Repr

/-- Modelled from the spec (the build member has no body in the repository
snapshot): select the good jets in input order, then gen-match each of them;
the previous per-event state is overwritten. -/
def rjBuild (cfg : RJConfig) (_st : RJBuilder) (jets : List Jet)
    (flavourInfo : List (Option GenJetEntry)) : RJBuilder :=
  { recoJets := (jets.filter (goodJet cfg)).map (fun j => mkRecoJet j none)
    recoJetsGenMatch := (jets.filter (goodJet cfg)).filterMap
      (matchJet cfg (indexedEntries 0 flavourInfo))
    jets := jets
    genJetsFlavourInfo := flavourInfo }

/-- Accessor recoJetCollection, embedded from RecoJetCollectionBuilder.h line
29: returns the stored collection by value and leaves the state unchanged. -/
def recoJetCollection (b : RJBuilder) : List RecoJet × RJBuilder :=
  (b.recoJets, b)

/-- Accessor recoJetGenMatchCollection, embedded from
RecoJetCollectionBuilder.h line 30. -/
def recoJetGenMatchCollection (b : RJBuilder) : List RecoJet × RJBuilder :=
  (b.recoJetsGenMatch, b)

/-- Identifier of a builder component, used to record which builders one call
of the orchestrator invokes. -/
inductive BuilderId
  | genVertex
  | recoJet
deriving DecidableEq, Repr

/-- The failure condition of the orchestrator: the primary-vertex collection is
empty, so primaryVertices.at(0) in VertexNtuplizer.cc line 120 throws. -/
inductive VNError
  | missingPrimaryVertex
deriving DecidableEq, Repr

/-- The input collections one event supplies to the orchestrator. -/
structure EventInput where
  genParticles : List GenParticle
  simTracks : List SimTrack
  primaryVertices : List Pos3
  jets : List Jet
  genJetsFlavourInfo : List (Option GenJetEntry)
deriving DecidableEq, Repr

/-- The observable outcome of one successful orchestrator call: the builder
state after the build, the builders invoked during the call, and the histogram
fills recorded (name and filled count). -/
structure AnalyzeResult where
  builder : GVBuilder
  invokedBuilders : List BuilderId
  histoFills : List (String × Nat)
deriving DecidableEq, Repr

/-- VertexNtuplizer::analyze, embedded from plugins/VertexNtuplizer.cc lines
114 to 133: take the first primary vertex (an empty collection fails the
event), invoke the generator-vertex builder, retrieve its four collections and
fill the four count histograms.  No other builder is invoked and no other
output is produced. -/
def vnAnalyze (cfg : GVConfig) (st : GVBuilder) (ev : EventInput) :
    Except VNError AnalyzeResult :=
  match ev.primaryVertices with
  | [] => Except.error VNError.missingPrimaryVertex
  | pv :: _ =>
    Except.ok
      { builder := gvBuild cfg st ev.genParticles ev.simTracks pv
        invokedBuilders := [BuilderId.genVertex]
        histoFills :=
          [("nGV", (gvBuild cfg st ev.genParticles ev.simTracks pv).genVertices.length),
           ("nGVs", (gvBuild cfg st ev.genParticles ev.simTracks pv).genVerticesSimMatch.length),
           ("nGVn", (gvBuild cfg st ev.genParticles ev.simTracks pv).genVerticesNoNu.length),
           ("nGVns", (gvBuild cfg st ev.genParticles ev.simTracks pv).genVerticesNoNuSimMatch.length)] }

/-- The property the matching step must establish: the chosen candidate is in
the candidate list, its squared angular distance to the jet is minimal, and
among candidates at the same distance it has the earliest index. -/
def isEarliestMin (piVal : ℚ) (j : Jet) (cands : List (Nat × GenJetEntry))
    (b : Nat × GenJetEntry) : Prop :=
  b ∈ cands ∧
  (∀ c ∈ cands, jetDr2 piVal j b.2 ≤ jetDr2 piVal j c.2) ∧
  (∀ c ∈ cands, jetDr2 piVal j c.2 = jetDr2 piVal j b.2 → b.1 ≤ c.1)

/-- Sample particle: a charged pion produced at position (1, 1, 1). -/
def samplePionPlus : GenParticle := { pdgId := 211, prodPos := some ⟨1, 1, 1⟩ }

/-- Sample particle: the oppositely charged pion at the same position. -/
def samplePionMinus : GenParticle := { pdgId := -211, prodPos := some ⟨1, 1, 1⟩ }

/-- Sample particle: an electron neutrino at the same position. -/
def sampleNeutrino : GenParticle := { pdgId := 12, prodPos := some ⟨1, 1, 1⟩ }

/-- Sample generator-particle list: three particles sharing one position. -/
def sampleParts : List GenParticle := [samplePionPlus, samplePionMinus, sampleNeutrino]

/-- Sample simulated track originating at the shared position. -/
def sampleTrack : SimTrack := { vtxPos := ⟨1, 1, 1⟩ }

/-- Sample vertex-builder configuration. -/
def sampleGVConfig : GVConfig := { eps := 1/10, delta := 1/2 }

/-- Sample primary vertex position at the origin. -/
def samplePrimary : Pos3 := ⟨0, 0, 0⟩

/-- The vertex-builder state with all four collections empty. -/
def gvEmpty : GVBuilder := ⟨[], [], [], []⟩

/-- The vertex the sample inputs produce in the all and sim-matched
collections. -/
def sampleVertexAll : GenVertex := ⟨⟨1, 1, 1⟩, sampleParts, true⟩

/-- The vertex the sample inputs produce in the two no-neutrino collections. -/
def sampleVertexNoNu : GenVertex := ⟨⟨1, 1, 1⟩, [samplePionPlus, samplePionMinus], true⟩

/-- A sample jet well inside all kinematic cuts. -/
def sampleJet : Jet := { eta := 0, phi := 0, pt := 50 }

/-- A sample generator jet close to the sample jet, with flavour label 5. -/
def sampleGenJet : GenJetEntry := { eta := 0, phi := 1/20, flavour := 5 }

/-- Sample jet-builder configuration. -/
def sampleRJConfig : RJConfig :=
  { absEtaMax := 12/5, jetPtMin := 20, jetPtMax := 200, drCut := 2/5, piVal := 3 }

/-- The jet-builder state with all stored collections empty. -/
def rjEmpty : RJBuilder := ⟨[], [], [], []⟩

/-- A sample event whose primary-vertex collection is empty. -/
def sampleEventNoPV : EventInput :=
  { genParticles := sampleParts, simTracks := [sampleTrack], primaryVertices := []
    jets := [sampleJet], genJetsFlavourInfo := [some sampleGenJet] }

/-- A sample event with one primary vertex and one jet. -/
def sampleEvent : EventInput :=
  { genParticles := sampleParts, simTracks := [sampleTrack]
    primaryVertices := [samplePrimary]
    jets := [sampleJet], genJetsFlavourInfo := [some sampleGenJet] }

/-- The orchestrator outcome on the sample event. -/
def sampleAnalyzeResult : AnalyzeResult :=
  { builder :=
      { genVertices := [sampleVertexAll]
        genVerticesSimMatch := [sampleVertexAll]
        genVerticesNoNu := [sampleVertexNoNu]
        genVerticesNoNuSimMatch := [sampleVertexNoNu] }
    invokedBuilders := [BuilderId.genVertex]
    histoFills := [("nGV", 1), ("nGVs", 1), ("nGVn", 1), ("nGVns", 1)] }

theorem mem_survivingClusters (cfg : GVConfig) (pv : Pos3) (parts : List GenParticle)
    (c : Pos3 × List GenParticle) (h : c ∈ survivingClusters cfg pv parts) :
    2 ≤ c.2.length ∧ cfg.delta ^ 2 < dist2 c.1 pv := by
  unfold survivingClusters at h
  have h2 := (List.mem_filter.mp h).2
  have h1 := (List.mem_filter.mp (List.mem_filter.mp h).1).2
  refine ⟨of_decide_eq_true h1, ?_⟩
  simp only [awayFromPrimary, Bool.not_eq_true', decide_eq_false_iff_not] at h2
  exact not_le.mp h2

theorem mem_gvVertices (cfg : GVConfig) (parts : List GenParticle)
    (simTracks : List SimTrack) (pv : Pos3) (v : GenVertex)
    (h : v ∈ gvVertices cfg parts simTracks pv) :
    ∃ c, c ∈ survivingClusters cfg pv parts ∧ v = classifyCluster cfg simTracks c := by
  obtain ⟨c, hc, hcv⟩ := List.mem_map.mp h
  exact ⟨c, hc, hcv.symm⟩

theorem gvVertices_multiplicity (cfg : GVConfig) (parts : List GenParticle)
    (simTracks : List SimTrack) (pv : Pos3) (v : GenVertex)
    (h : v ∈ gvVertices cfg parts simTracks pv) : 2 ≤ v.daughters.length := by
  obtain ⟨c, hc, hvc⟩ := mem_gvVertices cfg parts simTracks pv v h
  rw [hvc]
  exact (mem_survivingClusters cfg pv parts c hc).1

theorem gvVertices_separation (cfg : GVConfig) (parts : List GenParticle)
    (simTracks : List SimTrack) (pv : Pos3) (v : GenVertex)
    (h : v ∈ gvVertices cfg parts simTracks pv) : cfg.delta ^ 2 < dist2 v.pos pv := by
  obtain ⟨c, hc, hvc⟩ := mem_gvVertices cfg parts simTracks pv v h
  rw [hvc]
  exact (mem_survivingClusters cfg pv parts c hc).2

theorem removeNeutrinos_eq_some (a v : GenVertex) (h : removeNeutrinos a = some v) :
    v.pos = a.pos ∧ v.simMatched = a.simMatched ∧
    v.daughters = a.daughters.filter (fun p => !isNeutrino p.pdgId) ∧
    2 ≤ v.daughters.length := by
  unfold removeNeutrinos at h
  by_cases hlen : 2 ≤ (a.daughters.filter (fun p => !isNeutrino p.pdgId)).length
  · rw [if_pos hlen] at h
    cases h
    exact ⟨rfl, rfl, rfl, hlen⟩
  · rw [if_neg hlen] at h
    exact absurd h (by simp)

theorem mem_gvBuild_cases (cfg : GVConfig) (st : GVBuilder) (parts : List GenParticle)
    (simTracks : List SimTrack) (pv : Pos3) (v : GenVertex)
    (h : v ∈ (gvBuild cfg st parts simTracks pv).genVertices ∨
         v ∈ (gvBuild cfg st parts simTracks pv).genVerticesSimMatch ∨
         v ∈ (gvBuild cfg st parts simTracks pv).genVerticesNoNu ∨
         v ∈ (gvBuild cfg st parts simTracks pv).genVerticesNoNuSimMatch) :
    ∃ a, a ∈ gvVertices cfg parts simTracks pv ∧ v.pos = a.pos ∧
      2 ≤ v.daughters.length := by
  simp only [gvBuild] at h
  have base : v ∈ gvVertices cfg parts simTracks pv ∨
      v ∈ (gvVertices cfg parts simTracks pv).filterMap removeNeutrinos := by
    rcases h with h | h | h | h
    · exact Or.inl h
    · exact Or.inl (List.mem_filter.mp h).1
    · exact Or.inr h
    · exact Or.inr (List.mem_filter.mp h).1
  rcases base with h | h
  · exact ⟨v, h, rfl, gvVertices_multiplicity cfg parts simTracks pv v h⟩
  · obtain ⟨a, ha, hra⟩ := List.mem_filterMap.mp h
    obtain ⟨hpos, _, _, hlen⟩ := removeNeutrinos_eq_some a v hra
    exact ⟨a, ha, hpos, hlen⟩

/-- Claim C1: if the primary-vertex collection supplied for an event is empty,
the analyze call fails with the MissingPrimaryVertex condition (the uncaught
out-of-range access on the first element, propagated up, not retried) and
produces no vertex output for that event: the error outcome carries no result. -/
theorem vnAnalyze_missingPrimaryVertex (cfg : GVConfig) (st : GVBuilder)
    (ev : EventInput) (h : ev.primaryVertices = []) :
    vnAnalyze cfg st ev = Except.error VNError.missingPrimaryVertex := by
  unfold vnAnalyze
  rw [h]

/-- Witness for C1 at a concrete event with an empty primary-vertex collection. -/
theorem vnAnalyze_missingPrimaryVertex_check :
    sampleEventNoPV.primaryVertices = [] ∧
    vnAnalyze sampleGVConfig gvEmpty sampleEventNoPV =
      Except.error VNError.missingPrimaryVertex :=
  ⟨rfl, vnAnalyze_missingPrimaryVertex sampleGVConfig gvEmpty sampleEventNoPV rfl⟩

/-- Claim C5: after every vertex-builder build call, the sim-matched collection
is a subset of the all-vertices collection, the no-neutrino sim-matched
collection is a subset of the no-neutrino collection, and every no-neutrino
vertex equals a counterpart of the all-vertices collection with all neutrino
daughters removed (same position, same sim-match flag). -/
theorem gvBuild_subset_laws (cfg : GVConfig) (st : GVBuilder)
    (parts : List GenParticle) (simTracks : List SimTrack) (pv : Pos3) :
    (∀ v, v ∈ (gvBuild cfg st parts simTracks pv).genVerticesSimMatch →
       v ∈ (gvBuild cfg st parts simTracks pv).genVertices) ∧
    (∀ v, v ∈ (gvBuild cfg st parts simTracks pv).genVerticesNoNuSimMatch →
       v ∈ (gvBuild cfg st parts simTracks pv).genVerticesNoNu) ∧
    (∀ v, v ∈ (gvBuild cfg st parts simTracks pv).genVerticesNoNu →
       ∃ a, a ∈ (gvBuild cfg st parts simTracks pv).genVertices ∧
         v.pos = a.pos ∧ v.simMatched = a.simMatched ∧
         v.daughters = a.daughters.filter (fun p => !isNeutrino p.pdgId)) := by
  refine ⟨?_, ?_, ?_⟩
  · intro v hv
    simp only [gvBuild] at hv ⊢
    exact (List.mem_filter.mp hv).1
  · intro v hv
    simp only [gvBuild] at hv ⊢
    exact (List.mem_filter.mp hv).1
  · intro v hv
    simp only [gvBuild] at hv ⊢
    obtain ⟨a, ha, hra⟩ := List.mem_filterMap.mp hv
    obtain ⟨hpos, hsim, hd, _⟩ := removeNeutrinos_eq_some a v hra
    exact ⟨a, ha, hpos, hsim, hd⟩

/-- Witness for C5: on the sample inputs, a concrete sim-matched vertex also
lies in the all-vertices collection. -/
theorem gvBuild_subset_laws_check :
    sampleVertexAll ∈
      (gvBuild sampleGVConfig gvEmpty sampleParts [sampleTrack] samplePrimary).genVerticesSimMatch ∧
    sampleVertexAll ∈
      (gvBuild sampleGVConfig gvEmpty sampleParts [sampleTrack] samplePrimary).genVertices := by
  have hm : sampleVertexAll ∈
      (gvBuild sampleGVConfig gvEmpty sampleParts [sampleTrack] samplePrimary).genVerticesSimMatch := by
    norm_num [gvBuild, gvVertices, survivingClusters, clusterParticles, insertParticle,
      classifyCluster, goodCluster, awayFromPrimary, dist2, isNeutrino,
      List.filter_cons, sampleGVConfig, samplePrimary, sampleParts,
      samplePionPlus, samplePionMinus, sampleNeutrino, sampleTrack, sampleVertexAll]
  exact ⟨hm,
    (gvBuild_subset_laws sampleGVConfig gvEmpty sampleParts [sampleTrack] samplePrimary).1
      sampleVertexAll hm⟩

/-- Claim C6: every GenVertex emitted in any of the four output collections
lies farther than the minimum separation delta from the primary vertex
position (stated on squared distances). -/
theorem gvBuild_primary_separation (cfg : GVConfig) (st : GVBuilder)
    (parts : List GenParticle) (simTracks : List SimTrack) (pv : Pos3) (v : GenVertex)
    (h : v ∈ (gvBuild cfg st parts simTracks pv).genVertices ∨
         v ∈ (gvBuild cfg st parts simTracks pv).genVerticesSimMatch ∨
         v ∈ (gvBuild cfg st parts simTracks pv).genVerticesNoNu ∨
         v ∈ (gvBuild cfg st parts simTracks pv).genVerticesNoNuSimMatch) :
    cfg.delta ^ 2 < dist2 v.pos pv := by
  obtain ⟨a, ha, hpos, _⟩ := mem_gvBuild_cases cfg st parts simTracks pv v h
  rw [hpos]
  exact gvVertices_separation cfg parts simTracks pv a ha

/-- Witness for C6 at the sample inputs and the concrete emitted vertex. -/
theorem gvBuild_primary_separation_check :
    sampleGVConfig.delta ^ 2 < dist2 sampleVertexAll.pos samplePrimary := by
  have hm : sampleVertexAll ∈
      (gvBuild sampleGVConfig gvEmpty sampleParts [sampleTrack] samplePrimary).genVertices := by
    norm_num [gvBuild, gvVertices, survivingClusters, clusterParticles, insertParticle,
      classifyCluster, goodCluster, awayFromPrimary, dist2, isNeutrino,
      List.filter_cons, sampleGVConfig, samplePrimary, sampleParts,
      samplePionPlus, samplePionMinus, sampleNeutrino, sampleTrack, sampleVertexAll]
  exact gvBuild_primary_separation sampleGVConfig gvEmpty sampleParts [sampleTrack]
    samplePrimary sampleVertexAll (Or.inl hm)

/-- Claim C7: every GenVertex in every one of the four output collections has
at least two daughter particles. -/
theorem gvBuild_min_multiplicity (cfg : GVConfig) (st : GVBuilder)
    (parts : List GenParticle) (simTracks : List SimTrack) (pv : Pos3) (v : GenVertex)
    (h : v ∈ (gvBuild cfg st parts simTracks pv).genVertices ∨
         v ∈ (gvBuild cfg st parts simTracks pv).genVerticesSimMatch ∨
         v ∈ (gvBuild cfg st parts simTracks pv).genVerticesNoNu ∨
         v ∈ (gvBuild cfg st parts simTracks pv).genVerticesNoNuSimMatch) :
    2 ≤ v.daughters.length := by
  obtain ⟨a, ha, hpos, hlen⟩ := mem_gvBuild_cases cfg st parts simTracks pv v h
  exact hlen

/-- Witness for C7 at the sample inputs and the concrete no-neutrino vertex. -/
theorem gvBuild_min_multiplicity_check :
    2 ≤ sampleVertexNoNu.daughters.length := by
  have hm : sampleVertexNoNu ∈
      (gvBuild sampleGVConfig gvEmpty sampleParts [sampleTrack] samplePrimary).genVerticesNoNu := by
    norm_num [gvBuild, gvVertices, survivingClusters, clusterParticles, insertParticle,
      classifyCluster, removeNeutrinos, goodCluster, awayFromPrimary, dist2, isNeutrino,
      List.filter_cons, List.filterMap_cons, sampleGVConfig, samplePrimary, sampleParts,
      samplePionPlus, samplePionMinus, sampleNeutrino, sampleTrack, sampleVertexNoNu]
  exact gvBuild_min_multiplicity sampleGVConfig gvEmpty sampleParts [sampleTrack]
    samplePrimary sampleVertexNoNu (Or.inr (Or.inr (Or.inl hm)))

/-- Claim C8: an empty input collection is never an error.  An empty
generator-particle list yields four empty vertex collections and an empty
reconstructed-jet collection yields two empty jet collections; both builders
are total functions, so no failure is raised in either case. -/
theorem empty_input_empty_output (cfgV : GVConfig) (stV : GVBuilder)
    (simTracks : List SimTrack) (pv : Pos3) (cfgJ : RJConfig) (stJ : RJBuilder)
    (flavourInfo : List (Option GenJetEntry)) :
    (gvBuild cfgV stV [] simTracks pv).genVertices = [] ∧
    (gvBuild cfgV stV [] simTracks pv).genVerticesSimMatch = [] ∧
    (gvBuild cfgV stV [] simTracks pv).genVerticesNoNu = [] ∧
    (gvBuild cfgV stV [] simTracks pv).genVerticesNoNuSimMatch = [] ∧
    (rjBuild cfgJ stJ [] flavourInfo).recoJets = [] ∧
    (rjBuild cfgJ stJ [] flavourInfo).recoJetsGenMatch = [] :=
  ⟨rfl, rfl, rfl, rfl, rfl, rfl⟩

/-- Claim C9: the vertex-builder build pass is deterministic and overwrites its
per-event state: running it a second time on identical input (same contents,
same order) yields exactly the same four collections, and the outcome never
depends on the state left by earlier events. -/
theorem gvBuild_deterministic (cfg : GVConfig) (st : GVBuilder)
    (parts : List GenParticle) (simTracks : List SimTrack) (pv : Pos3) :
    gvBuild cfg (gvBuild cfg st parts simTracks pv) parts simTracks pv =
      gvBuild cfg st parts simTracks pv ∧
    ∀ st2 : GVBuilder,
      gvBuild cfg st parts simTracks pv = gvBuild cfg st2 parts simTracks pv :=
  ⟨rfl, fun _ => rfl⟩

/-- Claim C2: a jet passes the selection predicate exactly when its absolute
pseudorapidity is at most absEtaMax and its transverse momentum lies between
jetPtMin and jetPtMax, all three bounds inclusive; the bounds are the fields of
the immutable configuration record fixed at construction. -/
theorem goodJet_selection_iff (cfg : RJConfig) (j : Jet) :
    goodJet cfg j = true ↔
      (|j.eta| ≤ cfg.absEtaMax ∧ cfg.jetPtMin ≤ j.pt ∧ j.pt ≤ cfg.jetPtMax) := by
  simp [goodJet]

/-- Witness for C2: a concrete jet exactly on the pt floor passes selection. -/
theorem goodJet_selection_check :
    goodJet sampleRJConfig { eta := 12/5, phi := 0, pt := 20 } = true := by
  apply (goodJet_selection_iff sampleRJConfig { eta := 12/5, phi := 0, pt := 20 }).mpr
  refine ⟨?_, by norm_num [sampleRJConfig], by norm_num [sampleRJConfig]⟩
  rw [show |(12/5 : ℚ)| = 12/5 from abs_of_nonneg (by norm_num)]
  norm_num [sampleRJConfig]

/-- Claim C10: the two result accessors return the stored collections by value
and leave the builder state unchanged, so two calls to the same accessor with
no intervening build call return equal collections. -/
theorem recoJet_accessors_pure (b : RJBuilder) :
    (recoJetCollection b).2 = b ∧
    (recoJetGenMatchCollection b).2 = b ∧
    (recoJetCollection ((recoJetCollection b).2)).1 = (recoJetCollection b).1 ∧
    (recoJetGenMatchCollection ((recoJetGenMatchCollection b).2)).1 =
      (recoJetGenMatchCollection b).1 :=
  ⟨rfl, rfl, rfl, rfl⟩

theorem indexedEntries_lower_bound (l : List (Option GenJetEntry)) :
    ∀ n : Nat, ∀ c ∈ indexedEntries n l, n ≤ c.1 := by
  induction l with
  | nil => intro n c hc; simp [indexedEntries] at hc
  | cons o rest ih =>
    intro n c hc
    cases o with
    | none =>
      simp only [indexedEntries] at hc
      exact le_trans (Nat.le_succ n) (ih (n + 1) c hc)
    | some g =>
      simp only [indexedEntries, List.mem_cons] at hc
      rcases hc with h | h
      · rw [h]
      · exact le_trans (Nat.le_succ n) (ih (n + 1) c h)

theorem indexedEntries_pairwise (l : List (Option GenJetEntry)) :
    ∀ n : Nat, (indexedEntries n l).Pairwise (fun a b => a.1 < b.1) := by
  induction l with
  | nil => intro n; simp [indexedEntries]
  | cons o rest ih =>
    intro n
    cases o with
    | none => simpa only [indexedEntries] using ih (n + 1)
    | some g =>
      simp only [indexedEntries]
      rw [List.pairwise_cons]
      exact ⟨fun c hc => lt_of_lt_of_le (Nat.lt_succ_self n)
        (indexedEntries_lower_bound rest (n + 1) c hc), ih (n + 1)⟩

theorem bestMatch_none_iff (piVal : ℚ) (j : Jet) (cands : List (Nat × GenJetEntry)) :
    bestMatch piVal j cands = none ↔ cands = [] := by
  cases cands with
  | nil => simp [bestMatch]
  | cons c rest =>
    simp only [bestMatch]
    cases h : bestMatch piVal j rest with
    | none => simp [betterOf]
    | some b =>
      simp only [betterOf]
      constructor
      · intro hcontr
        by_cases hlt : jetDr2 piVal j b.2 < jetDr2 piVal j c.2
        · rw [if_pos hlt] at hcontr; exact absurd hcontr (by simp)
        · rw [if_neg hlt] at hcontr; exact absurd hcontr (by simp)
      · intro hcontr; exact absurd hcontr (by simp)

theorem bestMatch_earliest_min (piVal : ℚ) (j : Jet) :
    ∀ cands : List (Nat × GenJetEntry),
      cands.Pairwise (fun a b => a.1 < b.1) →
      ∀ b, bestMatch piVal j cands = some b → isEarliestMin piVal j cands b := by
  intro cands
  induction cands with
  | nil => intro _ b hb; simp [bestMatch] at hb
  | cons c rest ih =>
    intro hp b hb
    rw [List.pairwise_cons] at hp
    obtain ⟨hc, hrest⟩ := hp
    simp only [bestMatch] at hb
    cases hbm : bestMatch piVal j rest with
    | none =>
      rw [hbm] at hb
      simp only [betterOf] at hb
      cases hb
      have hre : rest = [] := (bestMatch_none_iff piVal j rest).mp hbm
      subst hre
      refine ⟨List.mem_singleton.mpr rfl, ?_, ?_⟩
      · intro x hx
        rw [List.mem_singleton.mp hx]
      · intro x hx _
        rw [List.mem_singleton.mp hx]
    | some b2 =>
      rw [hbm] at hb
      simp only [betterOf] at hb
      have ihb2 := ih hrest b2 hbm
      by_cases hlt : jetDr2 piVal j b2.2 < jetDr2 piVal j c.2
      · rw [if_pos hlt] at hb
        cases hb
        refine ⟨List.mem_cons_of_mem c ihb2.1, ?_, ?_⟩
        · intro x hx
          rcases List.mem_cons.mp hx with h | h
          · rw [h]; exact le_of_lt hlt
          · exact ihb2.2.1 x h
        · intro x hx heq
          rcases List.mem_cons.mp hx with h | h
          · rw [h] at heq
            rw [heq] at hlt
            exact absurd hlt (lt_irrefl _)
          · exact ihb2.2.2 x h heq
      · rw [if_neg hlt] at hb
        cases hb
        have hle : jetDr2 piVal j c.2 ≤ jetDr2 piVal j b2.2 := le_of_not_lt hlt
        refine ⟨List.mem_cons_self c rest, ?_, ?_⟩
        · intro x hx
          rcases List.mem_cons.mp hx with h | h
          · rw [h]
          · exact le_trans hle (ihb2.2.1 x h)
        · intro x hx _
          rcases List.mem_cons.mp hx with h | h
          · rw [h]
          · exact le_of_lt (hc x h)

/-- Claim C3: for every jet that passes selection, the build pass finds the
generator jet of minimum angular distance in the flavour-info collection (ties
broken by earliest index); the jet enters the gen-matched collection carrying
that generator jet flavour exactly when the minimum distance is within the
matching cut (squared comparison), and it appears in the good-jet collection
in every case. -/
theorem rjBuild_gen_matching (cfg : RJConfig) (st : RJBuilder) (jets : List Jet)
    (flavourInfo : List (Option GenJetEntry)) :
    (∀ j, j ∈ jets → goodJet cfg j = true →
      mkRecoJet j none ∈ (rjBuild cfg st jets flavourInfo).recoJets ∧
      (∀ b, bestMatch cfg.piVal j (indexedEntries 0 flavourInfo) = some b →
        isEarliestMin cfg.piVal j (indexedEntries 0 flavourInfo) b ∧
        (jetDr2 cfg.piVal j b.2 ≤ cfg.drCut ^ 2 →
          mkRecoJet j (some b.2.flavour) ∈
            (rjBuild cfg st jets flavourInfo).recoJetsGenMatch))) ∧
    (∀ r, r ∈ (rjBuild cfg st jets flavourInfo).recoJetsGenMatch →
      ∃ j b, j ∈ jets ∧ goodJet cfg j = true ∧
        bestMatch cfg.piVal j (indexedEntries 0 flavourInfo) = some b ∧
        isEarliestMin cfg.piVal j (indexedEntries 0 flavourInfo) b ∧
        jetDr2 cfg.piVal j b.2 ≤ cfg.drCut ^ 2 ∧
        r = mkRecoJet j (some b.2.flavour)) := by
  constructor
  · intro j hj hgood
    constructor
    · simp only [rjBuild]
      exact List.mem_map.mpr ⟨j, List.mem_filter.mpr ⟨hj, hgood⟩, rfl⟩
    · intro b hb
      refine ⟨bestMatch_earliest_min cfg.piVal j _
        (indexedEntries_pairwise flavourInfo 0) b hb, fun hcut => ?_⟩
      simp only [rjBuild]
      refine List.mem_filterMap.mpr ⟨j, List.mem_filter.mpr ⟨hj, hgood⟩, ?_⟩
      unfold matchJet
      rw [hb]
      simp only [acceptMatch]
      rw [if_pos hcut]
  · intro r hr
    simp only [rjBuild] at hr
    obtain ⟨j, hjf, hmj⟩ := List.mem_filterMap.mp hr
    obtain ⟨hj, hgood⟩ := List.mem_filter.mp hjf
    unfold matchJet at hmj
    cases hb : bestMatch cfg.piVal j (indexedEntries 0 flavourInfo) with
    | none =>
      rw [hb] at hmj
      simp [acceptMatch] at hmj
    | some b =>
      rw [hb] at hmj
      simp only [acceptMatch] at hmj
      by_cases hcut : jetDr2 cfg.piVal j b.2 ≤ cfg.drCut ^ 2
      · rw [if_pos hcut] at hmj
        cases hmj
        exact ⟨j, b, hj, hgood, hb, bestMatch_earliest_min cfg.piVal j _
          (indexedEntries_pairwise flavourInfo 0) b hb, hcut, rfl⟩
      · rw [if_neg hcut] at hmj
        exact absurd hmj (by simp)

/-- Witness for C3: the sample jet passes selection, its nearest generator jet
is within the cut, and both predicted memberships hold on the sample inputs. -/
theorem rjBuild_gen_matching_check :
    mkRecoJet sampleJet none ∈
      (rjBuild sampleRJConfig rjEmpty [sampleJet] [some sampleGenJet]).recoJets ∧
    mkRecoJet sampleJet (some 5) ∈
      (rjBuild sampleRJConfig rjEmpty [sampleJet] [some sampleGenJet]).recoJetsGenMatch := by
  have h := rjBuild_gen_matching sampleRJConfig rjEmpty [sampleJet] [some sampleGenJet]
  have hj : sampleJet ∈ [sampleJet] := List.mem_singleton.mpr rfl
  have hgood : goodJet sampleRJConfig sampleJet = true := by
    norm_num [goodJet, sampleRJConfig, sampleJet]
  have hbm : bestMatch sampleRJConfig.piVal sampleJet
      (indexedEntries 0 [some sampleGenJet]) = some (0, sampleGenJet) := rfl
  have hceil : (⌈(-(61/120) : ℚ)⌉ : ℤ) = 0 := by
    rw [Int.ceil_eq_zero_iff, Set.mem_Ioc]
    norm_num
  have hcut : jetDr2 sampleRJConfig.piVal sampleJet (0, sampleGenJet).2 ≤
      sampleRJConfig.drCut ^ 2 := by
    norm_num [jetDr2, deltaR2, wrapPhi, sampleRJConfig, sampleJet, sampleGenJet, hceil]
  exact ⟨(h.1 sampleJet hj hgood).1,
    ((h.1 sampleJet hj hgood).2 (0, sampleGenJet) hbm).2 hcut⟩

/-- Counterexample for C4: on a concrete event that carries a primary vertex
and a non-empty jet collection, the orchestrator invokes only the
generator-vertex builder; the reconstructed-jet builder is never invoked and
the outcome carries no RecoJet collection, so the claim that every event also
runs the jet builder and produces the two RecoJet collections is false. -/
theorem vnAnalyze_no_recoJet_counterexample :
    vnAnalyze sampleGVConfig gvEmpty sampleEvent = Except.ok sampleAnalyzeResult ∧
    BuilderId.recoJet ∉ sampleAnalyzeResult.invokedBuilders ∧
    sampleEvent.jets ≠ [] := by
  refine ⟨?_, by simp [sampleAnalyzeResult], by simp [sampleEvent]⟩
  norm_num [vnAnalyze, sampleEvent, sampleAnalyzeResult, gvBuild, gvVertices,
    survivingClusters, clusterParticles, insertParticle, classifyCluster,
    removeNeutrinos, goodCluster, awayFromPrimary, dist2, isNeutrino,
    List.filter_cons, List.filterMap_cons, sampleGVConfig, samplePrimary,
    sampleParts, samplePionPlus, samplePionMinus, sampleNeutrino, sampleTrack,
    sampleVertexAll, sampleVertexNoNu]

/-- Claim C4 (amended): for every event whose primary-vertex collection is
non-empty, the orchestrator invokes the generator-vertex builder on the event
input collections and records the four vertex-collection counts; it does not
invoke the reconstructed-jet builder and produces no RecoJet collections. -/
theorem vnAnalyze_invokes_only_gen_vertex (cfg : GVConfig) (st : GVBuilder)
    (ev : EventInput) (pv : Pos3) (rest : List Pos3)
    (h : ev.primaryVertices = pv :: rest) :
    vnAnalyze cfg st ev = Except.ok
      { builder := gvBuild cfg st ev.genParticles ev.simTracks pv
        invokedBuilders := [BuilderId.genVertex]
        histoFills :=
          [("nGV", (gvBuild cfg st ev.genParticles ev.simTracks pv).genVertices.length),
           ("nGVs", (gvBuild cfg st ev.genParticles ev.simTracks pv).genVerticesSimMatch.length),
           ("nGVn", (gvBuild cfg st ev.genParticles ev.simTracks pv).genVerticesNoNu.length),
           ("nGVns", (gvBuild cfg st ev.genParticles ev.simTracks pv).genVerticesNoNuSimMatch.length)] } ∧
    BuilderId.recoJet ∉ [BuilderId.genVertex] := by
  constructor
  · unfold vnAnalyze
    rw [h]
  · simp

/-- Witness for the amended C4 at the sample event with one primary vertex. -/
theorem vnAnalyze_invokes_only_gen_vertex_check :
    vnAnalyze sampleGVConfig gvEmpty sampleEvent = Except.ok
      { builder := gvBuild sampleGVConfig gvEmpty sampleEvent.genParticles
          sampleEvent.simTracks samplePrimary
        invokedBuilders := [BuilderId.genVertex]
        histoFills :=
          [("nGV", (gvBuild sampleGVConfig gvEmpty sampleEvent.genParticles
              sampleEvent.simTracks samplePrimary).genVertices.length),
           ("nGVs", (gvBuild sampleGVConfig gvEmpty sampleEvent.genParticles
              sampleEvent.simTracks samplePrimary).genVerticesSimMatch.length),
           ("nGVn", (gvBuild sampleGVConfig gvEmpty sampleEvent.genParticles
              sampleEvent.simTracks samplePrimary).genVerticesNoNu.length),
           ("nGVns", (gvBuild sampleGVConfig gvEmpty sampleEvent.genParticles
              sampleEvent.simTracks samplePrimary).genVerticesNoNuSimMatch.length)] } ∧
    BuilderId.recoJet ∉ [BuilderId.genVertex] :=
  vnAnalyze_invokes_only_gen_vertex sampleGVConfig gvEmpty sampleEvent
    samplePrimary [] rfl
